import Mathlib

/-!
Verification of the smart-summary engine of the sleepface backend
(`backend/smart_summary_service.py`), as a shallow embedding.

Feature scores and routine quantities are Python floats in the source; they
are modelled as rationals (`ℚ`) so that window averages and variances are
exact.  Python dicts appear as insertion-ordered association lists
`List (String × ℚ)`.  Messages produced by f-strings are modelled by
inductive constructors carrying exactly the data interpolated into the
corresponding source string (one constructor per source message), since no
claim inspects the surrounding literal text.  The external LLM collaborator
(`FlexibleLLMService`, outside this repository) is a parameter
`llm : Prompt → LLMOutcome`, and the `random.choice` prompt variation is a
parameter `seed : Fin 4` selecting among the four variation strings.
-/

namespace SmartSummary

/-- One analysis data point: the `features` mapping plus the two scores read
with `.get(..., 0)` in the source.  Used both for `current_analysis` and for
entries of `historical_data`. -/
structure Analysis where
  features : List (String × ℚ)
  sleep_score : ℚ
  skin_health_score : ℚ
deriving DecidableEq, Repr

/-- The routine mapping.  `sleep_hours` and `water_intake` are optional
because the source reads them with *different* defaults at different sites
(`routine.get('sleep_hours', 0)` in `_get_lifestyle_recommendation` but
`routine.get('sleep_hours', 8)` in the fallback of
`_generate_ai_recommendations`). -/
structure Routine where
  sleep_hours : Option ℚ
  water_intake : Option ℚ
deriving DecidableEq, Repr

/-- Reads `entry.get('features', {}).get(feature_key, 0)`. -/
def getFeature (e : Analysis) (k : String) : ℚ :=
  ((e.features.find? (fun p => p.1 == k)).map Prod.snd).getD 0

/-- Reads `mapping.get(k, d)` on a feature mapping. -/
def lookupD (m : List (String × ℚ)) (k : String) (d : ℚ) : ℚ :=
  ((m.find? (fun p => p.1 == k)).map Prod.snd).getD d

/-- Models `statistics.mean` (the source only applies it to nonempty lists). -/
def mean (l : List ℚ) : ℚ := l.sum / l.length

/-- Models `statistics.variance`: sample variance, denominator `n - 1` (the source
guards every call with `len(values) > 1`). -/
def sampleVariance (l : List ℚ) : ℚ :=
  (l.map (fun x => (x - mean l) ^ 2)).sum / ((l.length : ℚ) - 1)

/-- Constant `self.IMPROVEMENT_THRESHOLD = 2.0`. -/
def IMPROVEMENT_THRESHOLD : ℚ := 2
/-- Constant `self.DECLINE_THRESHOLD = -2.0`. -/
def DECLINE_THRESHOLD : ℚ := -2
/-- Constant `self.STAGNATION_THRESHOLD = 0.5`. -/
def STAGNATION_THRESHOLD : ℚ := 1/2
/-- Constant `self.STAGNATION_DURATION = 14`. -/
def STAGNATION_DURATION : Nat := 14

/-- Per-feature quality band, one row of `self.FEATURE_RANGES`. -/
structure QualityBand where
  excellent : ℚ
  good : ℚ
  fair : ℚ
  poor : ℚ
deriving DecidableEq, Repr

/-- Table `self.FEATURE_RANGES` (`None` for keys absent from the dict). -/
def FEATURE_RANGES (k : String) : Option QualityBand :=
  if k = "dark_circles" then some ⟨75, 60, 45, 30⟩
  else if k = "puffiness" then some ⟨70, 55, 40, 25⟩
  else if k = "brightness" then some ⟨80, 65, 50, 35⟩
  else if k = "wrinkles" then some ⟨75, 60, 45, 30⟩
  else if k = "texture" then some ⟨75, 60, 45, 30⟩
  else if k = "pore_size" then some ⟨70, 55, 40, 25⟩
  else none

/-- Reads `self.FEATURE_RANGES.get(k, {}).get('good', 60)`. -/
def goodThresholdOf (k : String) : ℚ :=
  match FEATURE_RANGES k with
  | some b => b.good
  | none => 60

/-- Reads `self.FEATURE_RANGES.get(k, {}).get('excellent', 75)`. -/
def excellentThresholdOf (k : String) : ℚ :=
  match FEATURE_RANGES k with
  | some b => b.excellent
  | none => 75

/-- Reads `self.FEATURE_NAMES.get(k, k)`. -/
def FEATURE_NAMES (k : String) : String :=
  if k = "dark_circles" then "Dark Circles"
  else if k = "puffiness" then "Eye Puffiness"
  else if k = "brightness" then "Skin Brightness"
  else if k = "wrinkles" then "Fine Lines"
  else if k = "texture" then "Skin Texture"
  else if k = "pore_size" then "Pore Size"
  else k

/-- Trend labels of `FeatureTrend.trend`. -/
inductive Trend
  | improving
  | declining
  | stable
  | stagnant
deriving DecidableEq, Repr

/-- Significance labels of `FeatureTrend.significance`. -/
inductive Significance
  | significant
  | moderate
  | minor
  | none
deriving DecidableEq, Repr

/-- The `FeatureTrend` dataclass. -/
structure FeatureTrend where
  feature_name : String
  current_value : ℚ
  previous_value : ℚ
  change : ℚ
  change_percentage : ℚ
  trend : Trend
  duration_days : Nat
  significance : Significance
deriving DecidableEq, Repr

/-- The threshold ladder of `_analyze_feature_trends` (lines 249-260),
factored out: trend and significance as a function of `change`. -/
def classifyChange (change : ℚ) : Trend × Significance :=
  if change ≥ IMPROVEMENT_THRESHOLD then
    (Trend.improving, if |change| ≥ 5 then Significance.significant else Significance.moderate)
  else if change ≤ DECLINE_THRESHOLD then
    (Trend.declining, if |change| ≥ 5 then Significance.significant else Significance.moderate)
  else if |change| ≤ STAGNATION_THRESHOLD then
    (Trend.stagnant, Significance.none)
  else
    (Trend.stable, Significance.minor)

/-- The recent window of `_analyze_feature_trends`:
`historical_data[-7:]` when at least 7 samples exist, else all of it. -/
def recentPeriod (historical : List Analysis) : List Analysis :=
  if historical.length ≥ 7 then historical.drop (historical.length - 7) else historical

/-- The comparison window of `_analyze_feature_trends`:
`historical_data[-14:-7] if len >= 14 else historical_data[:7]` when at least
7 samples exist, else `historical_data[:len//2]` when more than one sample
exists, else `historical_data[:1]`. -/
def comparisonPeriod (historical : List Analysis) : List Analysis :=
  if historical.length ≥ 7 then
    if historical.length ≥ 14 then (historical.drop (historical.length - 14)).take 7
    else historical.take 7
  else
    if historical.length > 1 then historical.take (historical.length / 2)
    else historical.take 1

/-- Translates `_analyze_feature_trends`: one `FeatureTrend` per entry of the current
`features` mapping, in mapping order. -/
def analyzeFeatureTrends (currentFeatures : List (String × ℚ))
    (historical : List Analysis) : List FeatureTrend :=
  let recent_period := recentPeriod historical
  let comparison_period := comparisonPeriod historical
  currentFeatures.map (fun p =>
    let feature_key := p.1
    let current_value := p.2
    let recent_avg := mean (recent_period.map (fun e => getFeature e feature_key))
    let previous_avg :=
      if comparison_period.isEmpty then current_value
      else mean (comparison_period.map (fun e => getFeature e feature_key))
    let change := recent_avg - previous_avg
    let change_percentage := if previous_avg ≠ 0 then change / |previous_avg| * 100 else 0
    let ts := classifyChange change
    { feature_name := feature_key
      current_value := current_value
      previous_value := previous_avg
      change := change
      change_percentage := change_percentage
      trend := ts.1
      duration_days := recent_period.length
      significance := ts.2 })

/-- Translates `_detect_significant_changes`. -/
def detectSignificantChanges (feature_trends : List FeatureTrend) : List FeatureTrend :=
  feature_trends.filter (fun t =>
    decide (t.significance = Significance.significant ∨ t.significance = Significance.moderate))

/-- Values of one feature over the 14-sample stagnation window
(`historical_data[-self.STAGNATION_DURATION:]`). -/
def stagValues (historical : List Analysis) (k : String) : List ℚ :=
  (historical.drop (historical.length - STAGNATION_DURATION)).map (fun e => getFeature e k)

/-- Loop body of `_detect_stagnation` for one `(feature_key, value)` entry of
the current `features` mapping. -/
def stagnationCheck (recent_period : List Analysis) (p : String × ℚ) : Option String :=
  let values := recent_period.map (fun e => getFeature e p.1)
  if values.isEmpty then none
  else
    let variance := if values.length > 1 then sampleVariance values else 0
    let total_change := |values.getLastD 0 - values.headD 0|
    if variance < 2 ∧ total_change < 2 ∧ p.2 < goodThresholdOf p.1 then some p.1 else none

/-- Translates `_detect_stagnation`. -/
def detectStagnation (historical : List Analysis)
    (currentFeatures : List (String × ℚ)) : List String :=
  if historical.length < STAGNATION_DURATION then []
  else
    currentFeatures.filterMap
      (stagnationCheck (historical.drop (historical.length - STAGNATION_DURATION)))

/-- Counts `len([t for t in feature_trends if t.trend == 'improving'])`. -/
def improvingCount (feature_trends : List FeatureTrend) : Nat :=
  (feature_trends.filter (fun t => decide (t.trend = Trend.improving))).length

/-- Counts `len([t for t in feature_trends if t.trend == 'declining'])`. -/
def decliningCount (feature_trends : List FeatureTrend) : Nat :=
  (feature_trends.filter (fun t => decide (t.trend = Trend.declining))).length

/-- Status templates of `_generate_daily_summary` (each constructor names one
of the five status+message strings; the interpolated scores and counts are
reproduced by the caller-supplied data, not inspected by any claim). -/
inductive DailyStatus
  | excellentProgress
  | goodProgress
  | timeForChanges
  | needsAttention
  | steadyProgress
deriving DecidableEq, Repr

/-- The status ladder of `_generate_daily_summary` (the source function also
receives `current_analysis`, `significant_changes` and `routine`, which only
feed interpolated message text, not the branching). -/
def generateDailySummary (feature_trends : List FeatureTrend)
    (stagnant_features : List String) : DailyStatus :=
  let improving := improvingCount feature_trends
  let declining := decliningCount feature_trends
  if improving ≥ 3 ∧ declining = 0 then DailyStatus.excellentProgress
  else if improving ≥ 2 ∧ declining ≤ 1 then DailyStatus.goodProgress
  else if stagnant_features.length ≥ 3 then DailyStatus.timeForChanges
  else if declining ≥ 2 then DailyStatus.needsAttention
  else DailyStatus.steadyProgress

/-- Insight strings.  One constructor per f-string of the source, carrying
the data interpolated into it:
* `improvedBy`    — "🎉 {name} improved by {points} points ({pct}%) ..."
* `declinedBy`    — "⚠️ {name} declined by {points} points ..."
* `stagnationAlert` — "🔄 {name} hasn't improved in 2+ weeks ..."
* `excellentFeature` — "✨ {name} is excellent ({value}/100) ..."
* `baselineLow`   — "{name}: {value}/100 - looks good but can improve"
  (the low-data branch of `generate_smart_summary`). -/
inductive Insight
  | improvedBy (feature : String) (points : ℚ) (pct : ℚ)
  | declinedBy (feature : String) (points : ℚ)
  | stagnationAlert (feature : String)
  | excellentFeature (feature : String) (value : ℚ)
  | baselineLow (feature : String) (value : ℚ)
deriving DecidableEq, Repr

/-- The feature key an insight refers to. -/
def Insight.refFeature : Insight → String
  | .improvedBy f _ _ => f
  | .declinedBy f _ => f
  | .stagnationAlert f => f
  | .excellentFeature f _ => f
  | .baselineLow f _ => f

/-- Translates `_generate_key_insights`.  The excellence loop appends only while the
list built so far has fewer than 5 entries, hence the fold. -/
def generateKeyInsights (feature_trends significant_changes : List FeatureTrend)
    (stagnant_features : List String) : List Insight :=
  let i1 := (significant_changes.filter (fun t => decide (t.trend = Trend.improving))).map
      (fun t => Insight.improvedBy t.feature_name |t.change| |t.change_percentage|)
  let i2 := (significant_changes.filter (fun t => decide (t.trend = Trend.declining))).map
      (fun t => Insight.declinedBy t.feature_name |t.change|)
  let i3 := stagnant_features.map Insight.stagnationAlert
  let withExcellent := feature_trends.foldl (fun acc t =>
      if t.current_value ≥ excellentThresholdOf t.feature_name then
        if acc.length < 5 then acc ++ [Insight.excellentFeature t.feature_name t.current_value]
        else acc
      else acc) (i1 ++ i2 ++ i3)
  withExcellent.take 6

/-- The five messages `_get_lifestyle_recommendation` can return (every one
is a nonempty string, so the source's truthiness check on it always
succeeds). -/
inductive LifestyleTip
  | prioritizeSleep
  | addHour
  | maintainSleep
  | increaseWater
  | generalEncouragement
deriving DecidableEq, Repr

/-- Translates `_get_lifestyle_recommendation` (reads the routine with default 0). -/
def lifestyleRecommendation (routine : Routine) : LifestyleTip :=
  let sleep_hours := routine.sleep_hours.getD 0
  let water_intake := routine.water_intake.getD 0
  if sleep_hours < 6 then LifestyleTip.prioritizeSleep
  else if sleep_hours < 7 then LifestyleTip.addHour
  else if sleep_hours ≥ 7 ∧ sleep_hours ≤ 9 then LifestyleTip.maintainSleep
  else if water_intake < 6 then LifestyleTip.increaseWater
  else LifestyleTip.generalEncouragement

/-- Recommendation entries.  Constructors other than `aiRec` each name one
fixed rule-based message string of the source:
* `featureRec k status` — the one message `_get_feature_recommendations`
  yields for known feature `k` with `status` ∈ {"declining", "stagnant"}
  (its `current_value` and `routine` parameters are unused in the source);
* `sleepLow` — "🛏️ Increase sleep to 7-8 hours ..." of the fallback;
* `waterLow` — "💧 Drink 8+ glasses of water daily ..." of the fallback;
* `tip` — the lifestyle tip appended on the generative success path;
* `aiRec` — one text item from the generative collaborator. -/
inductive RecEntry
  | featureRec (feature : String) (status : String)
  | sleepLow
  | waterLow
  | tip (t : LifestyleTip)
  | aiRec (text : String)
deriving DecidableEq, Repr

/-- Holds (as `true`) for every entry produced by the deterministic rule engine or the
deterministic lifestyle ladder, `false` for generative text. -/
def RecEntry.isDeterministic : RecEntry → Bool
  | .aiRec _ => false
  | _ => true

/-- Translates `_get_feature_recommendations`: exactly one message for each of the six
known feature keys, nothing otherwise. -/
def featureRecommendations (feature_key : String) (status : String) : List RecEntry :=
  if feature_key = "dark_circles" ∨ feature_key = "puffiness" ∨ feature_key = "brightness"
      ∨ feature_key = "wrinkles" ∨ feature_key = "texture" ∨ feature_key = "pore_size" then
    [RecEntry.featureRec feature_key status]
  else []

/-- Stable insertion of a `(key, value)` pair into a list ascending by value:
the pair goes after strictly smaller values and before equal ones. -/
def insertAsc (p : String × ℚ) : List (String × ℚ) → List (String × ℚ)
  | [] => [p]
  | q :: rest => if q.2 < p.2 then q :: insertAsc p rest else p :: q :: rest

/-- Models `sorted(features.items(), key=lambda x: x[1])`: stable ascending sort of
the mapping's entries by score. -/
def sortByValue (l : List (String × ℚ)) : List (String × ℚ) :=
  l.foldr insertAsc []

/-- The four `variation_seed` strings drawn by `random.choice` in
`_generate_ai_recommendations`; the draw itself is the `seed : Fin 4`
parameter of the pipeline. -/
def variationChoices (i : Fin 4) : String :=
  match i.val with
  | 0 => "Focus on innovative skincare"
  | 1 => "Emphasize dermatologist-approved methods"
  | 2 => "Prioritize evidence-based approaches"
  | _ => "Consider holistic skin wellness"

/-- The data interpolated into the prompt sent to the generative
collaborator: variation string, the two worst features (display name and
score). -/
structure Prompt where
  variation : String
  area1 : String
  area2 : String
  value1 : ℚ
  value2 : ℚ
deriving DecidableEq, Repr

/-- Prompt construction of `_generate_ai_recommendations`: worst two
features by ascending score, with the documented fallbacks when fewer than
two features exist. -/
def buildPrompt (current : Analysis) (seed : Fin 4) : Prompt :=
  let worst := (sortByValue current.features).take 2
  let area1_key := match worst.get? 0 with | some p => p.1 | none => "skin_health"
  let area2_key := match worst.get? 1 with | some p => p.1 | none => "texture"
  { variation := variationChoices seed
    area1 := FEATURE_NAMES area1_key
    area2 := FEATURE_NAMES area2_key
    value1 := ((worst.get? 0).map Prod.snd).getD 0
    value2 := ((worst.get? 1).map Prod.snd).getD 0 }

/-- Behaviour of the external generative collaborator on one request:
it raises (or times out), or returns something that is not a (truthy) dict,
or returns a dict whose relevant fields are these three lists (each read
with `.get(..., [])` in the source). -/
inductive LLMOutcome
  | raises
  | nonDict
  | dict (recommendations natural_remedies product_recommendations : List String)
deriving DecidableEq, Repr

/-- The failure condition of the source's success test
`ai_response and isinstance(ai_response, dict)` followed by
`ai_recs and len(ai_recs) >= 1`: an exception, a non-dict response, or an
empty/absent `recommendations` field. -/
def LLMOutcome.failing : LLMOutcome → Bool
  | .raises => true
  | .nonDict => true
  | .dict recs _ _ => recs.isEmpty

/-- What `_generate_ai_recommendations` returns: a dict on the generative
success path, a plain list from the rule-based fallback. -/
inductive RecResult
  | dict (recommendations : List RecEntry) (natural_remedies product_recommendations : List String)
      (lifestyle_tip : Option LifestyleTip)
  | list (recommendations : List RecEntry)
deriving DecidableEq, Repr

/-- The caller-side `isinstance(rec_result, dict)` handling: the
`recommendations` read from either shape. -/
def RecResult.recommendations : RecResult → List RecEntry
  | .dict r _ _ _ => r
  | .list r => r

/-- Caller-side read of `natural_remedies` (default `[]` for the list shape). -/
def RecResult.natural_remedies : RecResult → List String
  | .dict _ n _ _ => n
  | .list _ => []

/-- Caller-side read of `product_recommendations` (default `[]`). -/
def RecResult.product_recommendations : RecResult → List String
  | .dict _ _ p _ => p
  | .list _ => []

/-- Caller-side read of `lifestyle_tip` (default `None`). -/
def RecResult.lifestyle_tip : RecResult → Option LifestyleTip
  | .dict _ _ _ t => t
  | .list _ => none

/-- The rule-based fallback block of `_generate_ai_recommendations`
(`current` is passed for the stagnant features' current values, which the
message strings do not use). -/
def fallbackRecommendations (current : Analysis) (routine : Routine)
    (feature_trends : List FeatureTrend) (stagnant_features : List String) : List RecEntry :=
  let declining := feature_trends.filter (fun t => decide (t.trend = Trend.declining))
  let fromDeclining := (declining.take 2).flatMap
      (fun t => featureRecommendations t.feature_name "declining")
  let fromStagnant := (stagnant_features.take 2).flatMap
      (fun k => featureRecommendations k "stagnant")
  let sleepRecs := if routine.sleep_hours.getD 8 < 7 then [RecEntry.sleepLow] else []
  let waterRecs := if routine.water_intake.getD 8 < 6 then [RecEntry.waterLow] else []
  (fromDeclining ++ fromStagnant ++ sleepRecs ++ waterRecs).take 8

/-- Translates `_generate_ai_recommendations`.  The `significant_changes` parameter of
the source is unused inside it and omitted here.  On success the combined
list is the first 4 generative items plus the lifestyle tip; any failure
falls back to the rule engine (the source's explicit
`raise Exception("AI recommendations not available")` lands in the same
`except` block). -/
def generateAIRecommendations (current : Analysis) (routine : Routine)
    (feature_trends : List FeatureTrend) (stagnant_features : List String)
    (seed : Fin 4) (llm : Prompt → LLMOutcome) : RecResult :=
  match llm (buildPrompt current seed) with
  | LLMOutcome.dict ai_recs natural_rems product_recs =>
      if ai_recs.isEmpty then
        RecResult.list (fallbackRecommendations current routine feature_trends stagnant_features)
      else
        let lifestyle_rec := lifestyleRecommendation routine
        RecResult.dict ((ai_recs.take 4).map RecEntry.aiRec ++ [RecEntry.tip lifestyle_rec])
          (natural_rems.take 2) (product_recs.take 2) (some lifestyle_rec)
  | _ => RecResult.list (fallbackRecommendations current routine feature_trends stagnant_features)

/-- Field `daily_summary` of the result: the low-data branch's fixed welcome
message ("Welcome! Your baseline Sleep Score is {s} ...") or one of the
five status messages of the normal branch (both interpolate the current
scores). -/
inductive DailySummary
  | welcomeBaseline (sleep_score skin_health_score : ℚ)
  | status (s : DailyStatus) (sleep_score skin_health_score : ℚ)
deriving DecidableEq, Repr

/-- The `model` field of the result dict. -/
inductive ModelTag
  | hybridTestingMode
  | hybrid
deriving DecidableEq, Repr

/-- The `trend_analysis` sub-dict of the result. -/
structure TrendBuckets where
  improving_features : List String
  declining_features : List String
  stagnant_features : List String
  stable_features : List String
deriving DecidableEq, Repr

/-- The dict returned by `generate_smart_summary`. -/
structure SummaryResult where
  daily_summary : DailySummary
  key_insights : List Insight
  recommendations : List RecEntry
  natural_remedies : List String
  product_recommendations : List String
  lifestyle_tip : Option LifestyleTip
  trend_analysis : TrendBuckets
  model : ModelTag
  data_points_analyzed : Nat
deriving DecidableEq, Repr

/-- Translates `generate_smart_summary`.  The low-data branch's outer
`try`/`except` around the recommendation call is unreachable:
`_generate_ai_recommendations` catches every exception internally. -/
def generateSmartSummary (current : Analysis) (routine : Routine)
    (historical : List Analysis) (seed : Fin 4) (llm : Prompt → LLMOutcome) : SummaryResult :=
  if historical.length < 2 then
    let features := current.features
    let insights := ((sortByValue features).take 2).map
        (fun p => Insight.baselineLow p.1 p.2)
    let rec_result := generateAIRecommendations current routine [] [] seed llm
    { daily_summary := DailySummary.welcomeBaseline current.sleep_score current.skin_health_score
      key_insights := insights.take 5
      recommendations := rec_result.recommendations.take 6
      natural_remedies := rec_result.natural_remedies
      product_recommendations := rec_result.product_recommendations
      lifestyle_tip := rec_result.lifestyle_tip
      trend_analysis := ⟨[], [], [], features.map Prod.fst⟩
      model := ModelTag.hybridTestingMode
      data_points_analyzed := historical.length }
  else
    let feature_trends := analyzeFeatureTrends current.features historical
    let significant_changes := detectSignificantChanges feature_trends
    let stagnant_features := detectStagnation historical current.features
    let daily := generateDailySummary feature_trends stagnant_features
    let key_insights := generateKeyInsights feature_trends significant_changes stagnant_features
    let rec_result := generateAIRecommendations current routine feature_trends
        stagnant_features seed llm
    { daily_summary := DailySummary.status daily current.sleep_score current.skin_health_score
      key_insights := key_insights
      recommendations := rec_result.recommendations
      natural_remedies := rec_result.natural_remedies
      product_recommendations := rec_result.product_recommendations
      lifestyle_tip := rec_result.lifestyle_tip
      trend_analysis :=
        ⟨(feature_trends.filter (fun t => decide (t.trend = Trend.improving))).map
            FeatureTrend.feature_name,
         (feature_trends.filter (fun t => decide (t.trend = Trend.declining))).map
            FeatureTrend.feature_name,
         stagnant_features,
         (feature_trends.filter (fun t => decide (t.trend = Trend.stable))).map
            FeatureTrend.feature_name⟩
      model := ModelTag.hybrid
      data_points_analyzed := historical.length }

/-! Concrete fixtures used by witnesses and counterexamples. -/

/-- A data point carrying a single `brightness` score. -/
def brightnessSample (v : ℚ) : Analysis := ⟨[("brightness", v)], 0, 0⟩

/-- Eight ascending data points whose `brightness` steps from 10 to 90. -/
def eightSamples : List Analysis :=
  [brightnessSample 10, brightnessSample 10, brightnessSample 10, brightnessSample 10,
   brightnessSample 90, brightnessSample 90, brightnessSample 90, brightnessSample 90]

/-- A data point carrying a single `wrinkles` score. -/
def wrinklesSample (v : ℚ) : Analysis := ⟨[("wrinkles", v)], 0, 0⟩

/-- Fourteen data points with `wrinkles` constant at 35. -/
def fourteenFlat : List Analysis :=
  [wrinklesSample 35, wrinklesSample 35, wrinklesSample 35, wrinklesSample 35,
   wrinklesSample 35, wrinklesSample 35, wrinklesSample 35, wrinklesSample 35,
   wrinklesSample 35, wrinklesSample 35, wrinklesSample 35, wrinklesSample 35,
   wrinklesSample 35, wrinklesSample 35]

/-- Two data points with `brightness` constant at 50. -/
def twoFlat : List Analysis := [brightnessSample 50, brightnessSample 50]

/-- The current sample of the spec's baseline scenario. -/
def exCurrent : Analysis :=
  ⟨[("brightness", 80), ("texture", 20), ("dark_circles", 55)], 70, 65⟩

/-- A collaborator that always raises. -/
def constFailLLM : Prompt → LLMOutcome := fun _ => LLMOutcome.raises

/-- A collaborator that always answers with five textual recommendations. -/
def constSuccessLLM : Prompt → LLMOutcome :=
  fun _ => LLMOutcome.dict ["r1", "r2", "r3", "r4", "r5"] ["n1"] ["p1"]

/-! Shared helper lemmas. -/

/-- In a mapping with distinct keys, a key determines its value. -/
lemma nodup_keys_value_unique {l : List (String × ℚ)} (h : (l.map Prod.fst).Nodup)
    {k : String} {v v' : ℚ} (h1 : (k, v) ∈ l) (h2 : (k, v') ∈ l) : v = v' := by
  induction l with
  | nil => cases h1
  | cons p rest ih =>
      simp only [List.map_cons, List.nodup_cons] at h
      rcases List.mem_cons.mp h1 with h1h | h1t
      · rcases List.mem_cons.mp h2 with h2h | h2t
        · simpa using h1h.trans h2h.symm
        · exfalso
          apply h.1
          rw [← h1h]
          simpa using List.mem_map_of_mem Prod.fst h2t
      · rcases List.mem_cons.mp h2 with h2h | h2t
        · exfalso
          apply h.1
          rw [← h2h]
          simpa using List.mem_map_of_mem Prod.fst h1t
        · exact ih h.2 h1t h2t

/-- Every trend record of `analyzeFeatureTrends` gets its labels from
`classifyChange` applied to its own `change`. -/
lemma analyzeFeatureTrends_classify {currentFeatures : List (String × ℚ)}
    {historical : List Analysis} {t : FeatureTrend}
    (ht : t ∈ analyzeFeatureTrends currentFeatures historical) :
    (t.trend, t.significance) = classifyChange t.change := by
  simp only [analyzeFeatureTrends, List.mem_map] at ht
  obtain ⟨p, _, rfl⟩ := ht
  rfl

/-- A nonempty list has `isEmpty = false`. -/
lemma isEmpty_eq_false_of_ne_nil {α : Type} {l : List α} (h : l ≠ []) :
    l.isEmpty = false := by
  cases l with
  | nil => exact absurd rfl h
  | cons a t => rfl

/-- With at least two historical samples, the comparison window is never
empty, so `previous_avg` never falls back to the current value. -/
lemma comparisonPeriod_isEmpty_false (historical : List Analysis)
    (h : 2 ≤ historical.length) : (comparisonPeriod historical).isEmpty = false := by
  apply isEmpty_eq_false_of_ne_nil
  unfold comparisonPeriod
  split_ifs with h7 h14 h1 <;>
    apply List.ne_nil_of_length_pos <;>
    simp only [List.length_take, List.length_drop] <;> omega

/-- The stagnation window has exactly 14 entries once 14 samples exist, so
the per-feature check of `_detect_stagnation` reduces to its three
conditions. -/
lemma stagnationCheck_eq (historical : List Analysis) (h14 : 14 ≤ historical.length)
    (p : String × ℚ) :
    stagnationCheck (historical.drop (historical.length - STAGNATION_DURATION)) p =
      (if sampleVariance (stagValues historical p.1) < 2 ∧
          |(stagValues historical p.1).getLastD 0 - (stagValues historical p.1).headD 0| < 2 ∧
          p.2 < goodThresholdOf p.1 then some p.1 else none) := by
  have hlen : ((historical.drop (historical.length - STAGNATION_DURATION)).map
      (fun e => getFeature e p.1)).length = 14 := by
    simp only [List.length_map, List.length_drop, STAGNATION_DURATION]
    omega
  have hne : (historical.drop (historical.length - STAGNATION_DURATION)).map
      (fun e => getFeature e p.1) ≠ [] :=
    List.ne_nil_of_length_pos (by rw [hlen]; omega)
  simp only [stagnationCheck]
  rw [isEmpty_eq_false_of_ne_nil hne]
  simp only [Bool.false_eq_true, if_false, hlen, stagValues]
  norm_num

/-- Under 14 or more samples, `_detect_stagnation` filters the current
features by the three stagnation conditions. -/
lemma detectStagnation_eq (historical : List Analysis) (cf : List (String × ℚ))
    (h14 : 14 ≤ historical.length) :
    detectStagnation historical cf =
      cf.filterMap (fun p =>
        if sampleVariance (stagValues historical p.1) < 2 ∧
            |(stagValues historical p.1).getLastD 0 - (stagValues historical p.1).headD 0| < 2 ∧
            p.2 < goodThresholdOf p.1 then some p.1 else none) := by
  unfold detectStagnation
  rw [if_neg (by unfold STAGNATION_DURATION; omega)]
  have hfun : stagnationCheck (historical.drop (historical.length - STAGNATION_DURATION)) =
      (fun p : String × ℚ =>
        if sampleVariance (stagValues historical p.1) < 2 ∧
            |(stagValues historical p.1).getLastD 0 - (stagValues historical p.1).headD 0| < 2 ∧
            p.2 < goodThresholdOf p.1 then some p.1 else none) :=
    funext fun p => stagnationCheck_eq historical h14 p
  rw [hfun]

/-- Dropping down to the last 14 samples leaves the stagnation window
unchanged. -/
lemma stagValues_drop (historical : List Analysis) (h14 : 14 ≤ historical.length)
    (k : String) :
    stagValues (historical.drop (historical.length - 14)) k = stagValues historical k := by
  unfold stagValues STAGNATION_DURATION
  have h0 : (historical.drop (historical.length - 14)).length - 14 = 0 := by
    rw [List.length_drop]
    omega
  rw [h0, List.drop_zero]

/-- On any failing collaborator outcome — exception, non-dict response, or
empty/absent recommendations — the orchestrator returns exactly the
rule-based fallback list. -/
lemma generateAIRecommendations_failing (current : Analysis) (routine : Routine)
    (feature_trends : List FeatureTrend) (stagnant_features : List String)
    (seed : Fin 4) (llm : Prompt → LLMOutcome)
    (hfail : (llm (buildPrompt current seed)).failing = true) :
    generateAIRecommendations current routine feature_trends stagnant_features seed llm =
      RecResult.list
        (fallbackRecommendations current routine feature_trends stagnant_features) := by
  unfold generateAIRecommendations
  cases h : llm (buildPrompt current seed) with
  | raises => rfl
  | nonDict => rfl
  | dict r n pr =>
      rw [h] at hfail
      simp only [LLMOutcome.failing] at hfail
      dsimp only
      rw [if_pos hfail]

/-- On a successful collaborator outcome the orchestrator returns the dict
shape: first four generative items plus the lifestyle tip, remedies and
products truncated to two. -/
lemma generateAIRecommendations_success (current : Analysis) (routine : Routine)
    (feature_trends : List FeatureTrend) (stagnant_features : List String)
    (seed : Fin 4) (llm : Prompt → LLMOutcome)
    (hok : (llm (buildPrompt current seed)).failing = false) :
    ∃ r n pr, llm (buildPrompt current seed) = LLMOutcome.dict r n pr ∧
      r.isEmpty = false ∧
      generateAIRecommendations current routine feature_trends stagnant_features seed llm =
        RecResult.dict ((r.take 4).map RecEntry.aiRec ++
            [RecEntry.tip (lifestyleRecommendation routine)])
          (n.take 2) (pr.take 2) (some (lifestyleRecommendation routine)) := by
  cases h : llm (buildPrompt current seed) with
  | raises => rw [h] at hok; simp [LLMOutcome.failing] at hok
  | nonDict => rw [h] at hok; simp [LLMOutcome.failing] at hok
  | dict r n pr =>
      rw [h] at hok
      simp only [LLMOutcome.failing] at hok
      refine ⟨r, n, pr, rfl, hok, ?_⟩
      unfold generateAIRecommendations
      rw [h]
      dsimp only
      rw [if_neg (by simp [hok])]

/-- The fallback list is capped at 8 entries. -/
lemma fallback_length_le (current : Analysis) (routine : Routine)
    (feature_trends : List FeatureTrend) (stagnant_features : List String) :
    (fallbackRecommendations current routine feature_trends stagnant_features).length ≤ 8 := by
  simp only [fallbackRecommendations]
  rw [List.length_take]
  exact min_le_left _ _

/-- Every entry of the fallback list is rule-based. -/
lemma fallback_deterministic (current : Analysis) (routine : Routine)
    (feature_trends : List FeatureTrend) (stagnant_features : List String) :
    ∀ e ∈ fallbackRecommendations current routine feature_trends stagnant_features,
      e.isDeterministic = true := by
  intro e he
  simp only [fallbackRecommendations] at he
  have he' := List.mem_of_mem_take he
  simp only [List.mem_append, List.mem_flatMap] at he'
  rcases he' with ((⟨t, ht, hft⟩ | ⟨k, hk, hfk⟩) | hs) | hw
  · simp only [featureRecommendations] at hft
    split at hft
    · simp only [List.mem_singleton] at hft
      subst hft
      rfl
    · cases hft
  · simp only [featureRecommendations] at hfk
    split at hfk
    · simp only [List.mem_singleton] at hfk
      subst hfk
      rfl
    · cases hfk
  · split at hs
    · simp only [List.mem_singleton] at hs
      subst hs
      rfl
    · cases hs
  · split at hw
    · simp only [List.mem_singleton] at hw
      subst hw
      rfl
    · cases hw

/-- Field-level reading of the low-data branch of the summary. -/
lemma summary_fields_low (current : Analysis) (routine : Routine)
    (historical : List Analysis) (seed : Fin 4) (llm : Prompt → LLMOutcome)
    (h : historical.length < 2) :
    (generateSmartSummary current routine historical seed llm).key_insights =
      (((sortByValue current.features).take 2).map
        (fun p => Insight.baselineLow p.1 p.2)).take 5 ∧
    (generateSmartSummary current routine historical seed llm).recommendations =
      (generateAIRecommendations current routine [] [] seed llm).recommendations.take 6 ∧
    (generateSmartSummary current routine historical seed llm).natural_remedies =
      (generateAIRecommendations current routine [] [] seed llm).natural_remedies ∧
    (generateSmartSummary current routine historical seed llm).product_recommendations =
      (generateAIRecommendations current routine [] [] seed llm).product_recommendations ∧
    (generateSmartSummary current routine historical seed llm).lifestyle_tip =
      (generateAIRecommendations current routine [] [] seed llm).lifestyle_tip ∧
    (generateSmartSummary current routine historical seed llm).daily_summary =
      DailySummary.welcomeBaseline current.sleep_score current.skin_health_score ∧
    (generateSmartSummary current routine historical seed llm).model =
      ModelTag.hybridTestingMode ∧
    (generateSmartSummary current routine historical seed llm).trend_analysis =
      ⟨[], [], [], current.features.map Prod.fst⟩ := by
  unfold generateSmartSummary
  rw [if_pos h]
  exact ⟨rfl, rfl, rfl, rfl, rfl, rfl, rfl, rfl⟩

/-- Field-level reading of the normal branch of the summary. -/
lemma summary_fields_normal (current : Analysis) (routine : Routine)
    (historical : List Analysis) (seed : Fin 4) (llm : Prompt → LLMOutcome)
    (h : ¬ historical.length < 2) :
    (generateSmartSummary current routine historical seed llm).key_insights =
      generateKeyInsights (analyzeFeatureTrends current.features historical)
        (detectSignificantChanges (analyzeFeatureTrends current.features historical))
        (detectStagnation historical current.features) ∧
    (generateSmartSummary current routine historical seed llm).recommendations =
      (generateAIRecommendations current routine
        (analyzeFeatureTrends current.features historical)
        (detectStagnation historical current.features) seed llm).recommendations ∧
    (generateSmartSummary current routine historical seed llm).natural_remedies =
      (generateAIRecommendations current routine
        (analyzeFeatureTrends current.features historical)
        (detectStagnation historical current.features) seed llm).natural_remedies ∧
    (generateSmartSummary current routine historical seed llm).product_recommendations =
      (generateAIRecommendations current routine
        (analyzeFeatureTrends current.features historical)
        (detectStagnation historical current.features) seed llm).product_recommendations ∧
    (generateSmartSummary current routine historical seed llm).lifestyle_tip =
      (generateAIRecommendations current routine
        (analyzeFeatureTrends current.features historical)
        (detectStagnation historical current.features) seed llm).lifestyle_tip := by
  unfold generateSmartSummary
  rw [if_neg h]
  exact ⟨rfl, rfl, rfl, rfl, rfl⟩

/-- The insight generator is capped at 6 entries. -/
lemma generateKeyInsights_length_le (feature_trends significant_changes : List FeatureTrend)
    (stagnant_features : List String) :
    (generateKeyInsights feature_trends significant_changes stagnant_features).length ≤ 6 := by
  simp only [generateKeyInsights]
  rw [List.length_take]
  exact min_le_left _ _

/-- Field bounds of the orchestrator result on every outcome. -/
lemma generateAIRecommendations_bounds (current : Analysis) (routine : Routine)
    (feature_trends : List FeatureTrend) (stagnant_features : List String)
    (seed : Fin 4) (llm : Prompt → LLMOutcome) :
    (generateAIRecommendations current routine feature_trends stagnant_features
        seed llm).recommendations.length ≤ 8 ∧
    (generateAIRecommendations current routine feature_trends stagnant_features
        seed llm).natural_remedies.length ≤ 2 ∧
    (generateAIRecommendations current routine feature_trends stagnant_features
        seed llm).product_recommendations.length ≤ 2 := by
  unfold generateAIRecommendations
  cases llm (buildPrompt current seed) with
  | raises =>
      exact ⟨fallback_length_le current routine feature_trends stagnant_features,
        by simp [RecResult.natural_remedies], by simp [RecResult.product_recommendations]⟩
  | nonDict =>
      exact ⟨fallback_length_le current routine feature_trends stagnant_features,
        by simp [RecResult.natural_remedies], by simp [RecResult.product_recommendations]⟩
  | dict r n pr =>
      dsimp only
      split_ifs with hre
      · exact ⟨fallback_length_le current routine feature_trends stagnant_features,
          by simp [RecResult.natural_remedies], by simp [RecResult.product_recommendations]⟩
      · refine ⟨?_, ?_, ?_⟩
        · simp only [RecResult.recommendations, List.length_append, List.length_map,
            List.length_take, List.length_singleton]
          omega
        · simp only [RecResult.natural_remedies]
          rw [List.length_take]
          exact min_le_left _ _
        · simp only [RecResult.product_recommendations]
          rw [List.length_take]
          exact min_le_left _ _

/-- On a successful outcome the combined list has at most 5 entries. -/
lemma generateAIRecommendations_success_len (current : Analysis) (routine : Routine)
    (feature_trends : List FeatureTrend) (stagnant_features : List String)
    (seed : Fin 4) (llm : Prompt → LLMOutcome)
    (hok : (llm (buildPrompt current seed)).failing = false) :
    (generateAIRecommendations current routine feature_trends stagnant_features
        seed llm).recommendations.length ≤ 5 := by
  obtain ⟨r, n, pr, -, -, heq⟩ := generateAIRecommendations_success current routine
    feature_trends stagnant_features seed llm hok
  rw [heq]
  simp only [RecResult.recommendations, List.length_append, List.length_map,
    List.length_take, List.length_singleton]
  omega

end SmartSummary

namespace SmartSummary

/-- C1: for every feature key in the current sample, once the window
averages and `change = recent_avg - previous_avg` are computed, the trend
label is the first match of the ladder `change ≥ 2 ⇒ improving`,
`change ≤ -2 ⇒ declining`, `|change| ≤ 0.5 ⇒ stagnant`, else `stable`, with
inclusive boundaries (+2 improving, -2 declining, 0.5 stagnant, 0.51
stable), and significance is `significant` iff `|change| ≥ 5` (else
`moderate`) for improving/declining, `none` for stagnant, `minor` for
stable. -/
theorem trend_classification_ladder (currentFeatures : List (String × ℚ))
    (historical : List Analysis) :
    (∀ t ∈ analyzeFeatureTrends currentFeatures historical,
      (t.trend, t.significance) = classifyChange t.change) ∧
    (∀ change : ℚ,
      (change ≥ IMPROVEMENT_THRESHOLD →
        classifyChange change = (Trend.improving,
          if |change| ≥ 5 then Significance.significant else Significance.moderate)) ∧
      (change ≤ DECLINE_THRESHOLD →
        classifyChange change = (Trend.declining,
          if |change| ≥ 5 then Significance.significant else Significance.moderate)) ∧
      (DECLINE_THRESHOLD < change → change < IMPROVEMENT_THRESHOLD →
        |change| ≤ STAGNATION_THRESHOLD →
        classifyChange change = (Trend.stagnant, Significance.none)) ∧
      (DECLINE_THRESHOLD < change → change < IMPROVEMENT_THRESHOLD →
        STAGNATION_THRESHOLD < |change| →
        classifyChange change = (Trend.stable, Significance.minor))) ∧
    classifyChange 2 = (Trend.improving, Significance.moderate) ∧
    classifyChange (-2) = (Trend.declining, Significance.moderate) ∧
    classifyChange (1/2) = (Trend.stagnant, Significance.none) ∧
    classifyChange (51/100) = (Trend.stable, Significance.minor) := by
  refine ⟨fun t ht => analyzeFeatureTrends_classify ht, fun change => ⟨?_, ?_, ?_, ?_⟩,
    ?_, ?_, ?_, ?_⟩
  · intro h
    unfold classifyChange
    rw [if_pos h]
  · intro h
    have h2 : ¬ (change ≥ IMPROVEMENT_THRESHOLD) := by
      unfold IMPROVEMENT_THRESHOLD DECLINE_THRESHOLD at *
      intro hc; linarith
    unfold classifyChange
    rw [if_neg h2, if_pos h]
  · intro h1 h2 h3
    unfold classifyChange
    rw [if_neg (not_le.mpr h2), if_neg (not_le.mpr h1), if_pos h3]
  · intro h1 h2 h3
    unfold classifyChange
    rw [if_neg (not_le.mpr h2), if_neg (not_le.mpr h1), if_neg (not_le.mpr h3)]
  · unfold classifyChange
    rw [if_pos (by norm_num [IMPROVEMENT_THRESHOLD]),
      if_neg (by norm_num : ¬ |(2:ℚ)| ≥ 5)]
  · unfold classifyChange
    rw [if_neg (by norm_num [IMPROVEMENT_THRESHOLD] : ¬ (-2:ℚ) ≥ IMPROVEMENT_THRESHOLD),
      if_pos (by norm_num [DECLINE_THRESHOLD]), if_neg (by norm_num : ¬ |(-2:ℚ)| ≥ 5)]
  · unfold classifyChange
    rw [if_neg (by norm_num [IMPROVEMENT_THRESHOLD] : ¬ (1/2:ℚ) ≥ IMPROVEMENT_THRESHOLD),
      if_neg (by norm_num [DECLINE_THRESHOLD] : ¬ (1/2:ℚ) ≤ DECLINE_THRESHOLD),
      if_pos (by norm_num [STAGNATION_THRESHOLD, abs_of_nonneg])]
  · unfold classifyChange
    rw [if_neg (by norm_num [IMPROVEMENT_THRESHOLD] : ¬ (51/100:ℚ) ≥ IMPROVEMENT_THRESHOLD),
      if_neg (by norm_num [DECLINE_THRESHOLD] : ¬ (51/100:ℚ) ≤ DECLINE_THRESHOLD),
      if_neg (by norm_num [STAGNATION_THRESHOLD, abs_of_nonneg] : ¬ |(51/100:ℚ)| ≤ STAGNATION_THRESHOLD)]

/-- Witness for C1 at `change = 7`. -/
theorem trend_classification_ladder_witness :
    classifyChange 7 = (Trend.improving, Significance.significant) := by
  have h := ((trend_classification_ladder [] []).2.1 7).1 (by norm_num [IMPROVEMENT_THRESHOLD])
  rw [h, if_pos (by norm_num : |(7:ℚ)| ≥ 5)]

/-- C6: the deterministic lifestyle tip follows the fixed first-match
ladder over `sleep_hours` and `water_intake`, and the routine
`{sleep_hours: 5, water_intake: 8}` gets the prioritize-sleep message, not
the water message. -/
theorem lifestyle_tip_ladder (routine : Routine) :
    (routine.sleep_hours.getD 0 < 6 →
      lifestyleRecommendation routine = LifestyleTip.prioritizeSleep) ∧
    (6 ≤ routine.sleep_hours.getD 0 → routine.sleep_hours.getD 0 < 7 →
      lifestyleRecommendation routine = LifestyleTip.addHour) ∧
    (7 ≤ routine.sleep_hours.getD 0 → routine.sleep_hours.getD 0 ≤ 9 →
      lifestyleRecommendation routine = LifestyleTip.maintainSleep) ∧
    (9 < routine.sleep_hours.getD 0 → routine.water_intake.getD 0 < 6 →
      lifestyleRecommendation routine = LifestyleTip.increaseWater) ∧
    (9 < routine.sleep_hours.getD 0 → 6 ≤ routine.water_intake.getD 0 →
      lifestyleRecommendation routine = LifestyleTip.generalEncouragement) ∧
    lifestyleRecommendation ⟨some 5, some 8⟩ = LifestyleTip.prioritizeSleep := by
  refine ⟨?_, ?_, ?_, ?_, ?_, by decide⟩ <;> unfold lifestyleRecommendation
  · intro h; rw [if_pos h]
  · intro h1 h2
    rw [if_neg (not_lt.mpr h1), if_pos h2]
  · intro h1 h2
    rw [if_neg (by linarith : ¬ routine.sleep_hours.getD 0 < 6),
      if_neg (not_lt.mpr h1), if_pos ⟨h1, h2⟩]
  · intro h1 h2
    rw [if_neg (by linarith : ¬ routine.sleep_hours.getD 0 < 6),
      if_neg (by linarith : ¬ routine.sleep_hours.getD 0 < 7),
      if_neg (by rintro ⟨-, h⟩; linarith), if_pos h2]
  · intro h1 h2
    rw [if_neg (by linarith : ¬ routine.sleep_hours.getD 0 < 6),
      if_neg (by linarith : ¬ routine.sleep_hours.getD 0 < 7),
      if_neg (by rintro ⟨-, h⟩; linarith), if_neg (not_lt.mpr h2)]

/-- Witness for C6 at the routine of the spec's scenario. -/
theorem lifestyle_tip_ladder_witness :
    lifestyleRecommendation ⟨some 5, some 8⟩ = LifestyleTip.prioritizeSleep :=
  (lifestyle_tip_ladder ⟨some 5, some 8⟩).1 (by decide)

/-- C8: in the normal branch the daily-summary status is the first match of
the ladder over the trend counts: improving ≥ 3 and declining = 0 gives
excellent progress; improving ≥ 2 and declining ≤ 1 gives good progress;
stagnant ≥ 3 gives time for changes; declining ≥ 2 gives needs attention;
otherwise steady progress. -/
theorem daily_status_ladder (feature_trends : List FeatureTrend)
    (stagnant_features : List String) (current : Analysis) (routine : Routine)
    (historical : List Analysis) (seed : Fin 4) (llm : Prompt → LLMOutcome) :
    (improvingCount feature_trends ≥ 3 → decliningCount feature_trends = 0 →
      generateDailySummary feature_trends stagnant_features = DailyStatus.excellentProgress) ∧
    (¬(improvingCount feature_trends ≥ 3 ∧ decliningCount feature_trends = 0) →
      improvingCount feature_trends ≥ 2 → decliningCount feature_trends ≤ 1 →
      generateDailySummary feature_trends stagnant_features = DailyStatus.goodProgress) ∧
    (¬(improvingCount feature_trends ≥ 3 ∧ decliningCount feature_trends = 0) →
      ¬(improvingCount feature_trends ≥ 2 ∧ decliningCount feature_trends ≤ 1) →
      stagnant_features.length ≥ 3 →
      generateDailySummary feature_trends stagnant_features = DailyStatus.timeForChanges) ∧
    (¬(improvingCount feature_trends ≥ 3 ∧ decliningCount feature_trends = 0) →
      ¬(improvingCount feature_trends ≥ 2 ∧ decliningCount feature_trends ≤ 1) →
      stagnant_features.length < 3 → decliningCount feature_trends ≥ 2 →
      generateDailySummary feature_trends stagnant_features = DailyStatus.needsAttention) ∧
    (¬(improvingCount feature_trends ≥ 3 ∧ decliningCount feature_trends = 0) →
      ¬(improvingCount feature_trends ≥ 2 ∧ decliningCount feature_trends ≤ 1) →
      stagnant_features.length < 3 → decliningCount feature_trends < 2 →
      generateDailySummary feature_trends stagnant_features = DailyStatus.steadyProgress) ∧
    (2 ≤ historical.length →
      (generateSmartSummary current routine historical seed llm).daily_summary =
        DailySummary.status
          (generateDailySummary (analyzeFeatureTrends current.features historical)
            (detectStagnation historical current.features))
          current.sleep_score current.skin_health_score) := by
  refine ⟨?_, ?_, ?_, ?_, ?_, ?_⟩
  · intro h1 h2
    unfold generateDailySummary
    rw [if_pos ⟨h1, h2⟩]
  · intro h h1 h2
    unfold generateDailySummary
    rw [if_neg h, if_pos ⟨h1, h2⟩]
  · intro ha hb h
    unfold generateDailySummary
    rw [if_neg ha, if_neg hb, if_pos h]
  · intro ha hb h1 h2
    unfold generateDailySummary
    rw [if_neg ha, if_neg hb, if_neg (not_le.mpr h1), if_pos h2]
  · intro ha hb h1 h2
    unfold generateDailySummary
    rw [if_neg ha, if_neg hb, if_neg (not_le.mpr h1), if_neg (not_le.mpr h2)]
  · intro h
    unfold generateSmartSummary
    rw [if_neg (by omega : ¬ historical.length < 2)]

/-- Witness for C8: no trends and no stagnation flags give steady progress. -/
theorem daily_status_ladder_witness :
    generateDailySummary [] [] = DailyStatus.steadyProgress :=
  (daily_status_ladder [] [] ⟨[], 0, 0⟩ ⟨Option.none, Option.none⟩ [] 0 constFailLLM).2.2.2.2.1
    (by decide) (by decide) (by decide) (by decide)

/-- C3 (counterexample): with 8 ascending samples the code's comparison
window is the *first 7 samples*, not the first half of the series as the
claim states; on a concrete series the resulting per-feature change is
80/7, while the claim's windows would give 320/7. -/
theorem window_selection_counterexample :
    2 ≤ eightSamples.length ∧
    eightSamples.length < 14 ∧
    comparisonPeriod eightSamples = eightSamples.take 7 ∧
    comparisonPeriod eightSamples ≠ eightSamples.take (eightSamples.length / 2) ∧
    (analyzeFeatureTrends [("brightness", 90)] eightSamples).map FeatureTrend.change
      = [80/7] ∧
    mean ((recentPeriod eightSamples).map (fun e => getFeature e "brightness")) -
      mean ((eightSamples.take (eightSamples.length / 2)).map
        (fun e => getFeature e "brightness")) = 320/7 ∧
    (80:ℚ)/7 ≠ 320/7 := by
  refine ⟨by decide, by decide, by decide, by decide, ?_, ?_, by norm_num⟩
  · norm_num [analyzeFeatureTrends, eightSamples, brightnessSample, recentPeriod,
      comparisonPeriod, getFeature, mean]
  · norm_num [eightSamples, brightnessSample, recentPeriod, getFeature, mean]

/-- C3 (amended): the recent window is the last min(7, N) samples; the
comparison window is the 7 samples immediately preceding it when N ≥ 14,
the *first 7 samples* when 7 ≤ N < 14, the first ⌊N/2⌋ samples when
2 ≤ N < 7, and the first sample when N = 1; the per-feature change is the
mean of the recent window minus the mean of the comparison window. -/
theorem window_selection_amended (historical : List Analysis)
    (currentFeatures : List (String × ℚ)) :
    recentPeriod historical =
      historical.drop (historical.length - min 7 historical.length) ∧
    (14 ≤ historical.length →
      comparisonPeriod historical = (historical.drop (historical.length - 14)).take 7) ∧
    (7 ≤ historical.length → historical.length < 14 →
      comparisonPeriod historical = historical.take 7) ∧
    (2 ≤ historical.length → historical.length < 7 →
      comparisonPeriod historical = historical.take (historical.length / 2)) ∧
    (historical.length = 1 → comparisonPeriod historical = historical.take 1) ∧
    (2 ≤ historical.length →
      ∀ t ∈ analyzeFeatureTrends currentFeatures historical,
        t.change =
          mean ((recentPeriod historical).map (fun e => getFeature e t.feature_name)) -
          mean ((comparisonPeriod historical).map (fun e => getFeature e t.feature_name))) := by
  refine ⟨?_, ?_, ?_, ?_, ?_, ?_⟩
  · unfold recentPeriod
    split_ifs with h7
    · rw [Nat.min_eq_left h7]
    · rw [Nat.min_eq_right (by omega), Nat.sub_self, List.drop_zero]
  · intro h14
    unfold comparisonPeriod
    rw [if_pos (by omega : historical.length ≥ 7), if_pos (by omega : historical.length ≥ 14)]
  · intro h7 h14
    unfold comparisonPeriod
    rw [if_pos h7, if_neg (by omega)]
  · intro h2 h7
    unfold comparisonPeriod
    rw [if_neg (by omega), if_pos (by omega)]
  · intro h1
    unfold comparisonPeriod
    rw [if_neg (by omega), if_neg (by omega)]
  · intro h2 t ht
    have he := comparisonPeriod_isEmpty_false historical h2
    simp only [analyzeFeatureTrends, List.mem_map] at ht
    obtain ⟨p, hp, rfl⟩ := ht
    simp [he]

/-- Witness for C3 (amended) at a 14-sample history and at the 8-sample
series. -/
theorem window_selection_amended_witness :
    comparisonPeriod fourteenFlat = (fourteenFlat.drop (fourteenFlat.length - 14)).take 7 ∧
    comparisonPeriod eightSamples = eightSamples.take 7 :=
  ⟨(window_selection_amended fourteenFlat []).2.1 (by decide),
   (window_selection_amended eightSamples []).2.2.1 (by decide) (by decide)⟩

/-- C4: the stagnation detector returns no flags under 14 samples; with at
least 14 it examines exactly the last 14, and a current feature is flagged
iff the sample variance of its window values is < 2, the absolute
difference of the window's last and first value is < 2, and its current
value is below its feature-specific good threshold; a window with variance
≥ 2 is never flagged. -/
theorem stagnation_detector_characterization (historical : List Analysis)
    (current : Analysis) (hkeys : (current.features.map Prod.fst).Nodup) :
    (historical.length < 14 → detectStagnation historical current.features = []) ∧
    (14 ≤ historical.length →
      detectStagnation historical current.features =
        detectStagnation (historical.drop (historical.length - 14)) current.features ∧
      (∀ k v, (k, v) ∈ current.features →
        (k ∈ detectStagnation historical current.features ↔
          sampleVariance (stagValues historical k) < 2 ∧
          |(stagValues historical k).getLastD 0 - (stagValues historical k).headD 0| < 2 ∧
          v < goodThresholdOf k)) ∧
      (∀ k, 2 ≤ sampleVariance (stagValues historical k) →
        k ∉ detectStagnation historical current.features)) := by
  refine ⟨?_, fun h14 => ⟨?_, ?_, ?_⟩⟩
  · intro h
    unfold detectStagnation STAGNATION_DURATION
    rw [if_pos h]
  · rw [detectStagnation_eq historical current.features h14,
      detectStagnation_eq (historical.drop (historical.length - 14)) current.features
        (by rw [List.length_drop]; omega)]
    simp only [stagValues_drop historical h14]
  · intro k v hkv
    rw [detectStagnation_eq historical current.features h14]
    constructor
    · intro hk
      rw [List.mem_filterMap] at hk
      obtain ⟨⟨k', v'⟩, hp, hpe⟩ := hk
      split at hpe
      case isTrue hc =>
        injection hpe with he
        subst he
        have hv : v' = v := nodup_keys_value_unique hkeys hp hkv
        subst hv
        exact hc
      case isFalse hc => cases hpe
    · intro hcond
      rw [List.mem_filterMap]
      refine ⟨(k, v), hkv, ?_⟩
      rw [if_pos hcond]
  · intro k hvar hk
    rw [detectStagnation_eq historical current.features h14, List.mem_filterMap] at hk
    obtain ⟨⟨k', v'⟩, hp, hpe⟩ := hk
    split at hpe
    case isTrue hc =>
      injection hpe with he
      subst he
      linarith [hc.1]
    case isFalse hc => cases hpe

/-- Witness for C4: fourteen samples with `wrinkles` constant at 35 (below
its good threshold 60) get flagged. -/
theorem stagnation_detector_characterization_witness :
    "wrinkles" ∈ detectStagnation fourteenFlat [("wrinkles", 35)] := by
  have h := ((stagnation_detector_characterization fourteenFlat ⟨[("wrinkles", 35)], 0, 0⟩
      (by simp)).2 (by decide)).2.1 "wrinkles" 35 (by simp)
  apply h.mpr
  refine ⟨?_, ?_, by decide⟩
  · norm_num [sampleVariance, stagValues, fourteenFlat, wrinklesSample, getFeature, mean,
      STAGNATION_DURATION]
  · norm_num [stagValues, fourteenFlat, wrinklesSample, getFeature, STAGNATION_DURATION]

/-- C2: when the generative collaborator raises, answers a non-dict, or
returns no recommendations, the summary's recommendations are exactly the
deterministic rule-engine output (truncated to 6 in the low-data branch),
at most 8 entries, all of deterministic origin, and the summary carries no
natural remedies, no product recommendations and no lifestyle tip. -/
theorem generative_failure_total_replacement (current : Analysis) (routine : Routine)
    (historical : List Analysis) (seed : Fin 4) (llm : Prompt → LLMOutcome)
    (hfail : (llm (buildPrompt current seed)).failing = true) :
    (2 ≤ historical.length →
      (generateSmartSummary current routine historical seed llm).recommendations =
        fallbackRecommendations current routine
          (analyzeFeatureTrends current.features historical)
          (detectStagnation historical current.features)) ∧
    (historical.length < 2 →
      (generateSmartSummary current routine historical seed llm).recommendations =
        (fallbackRecommendations current routine [] []).take 6) ∧
    (generateSmartSummary current routine historical seed llm).recommendations.length ≤ 8 ∧
    (∀ e ∈ (generateSmartSummary current routine historical seed llm).recommendations,
      e.isDeterministic = true) ∧
    (generateSmartSummary current routine historical seed llm).natural_remedies = [] ∧
    (generateSmartSummary current routine historical seed llm).product_recommendations = [] ∧
    (generateSmartSummary current routine historical seed llm).lifestyle_tip = Option.none := by
  by_cases h2 : historical.length < 2
  · obtain ⟨-, hrec, hnr, hpr, htip, -, -, -⟩ :=
      summary_fields_low current routine historical seed llm h2
    rw [generateAIRecommendations_failing current routine [] [] seed llm hfail]
      at hrec hnr hpr htip
    simp only [RecResult.recommendations, RecResult.natural_remedies,
      RecResult.product_recommendations, RecResult.lifestyle_tip] at hrec hnr hpr htip
    refine ⟨fun hc => absurd hc (by omega), fun _ => hrec, ?_, ?_, hnr, hpr, htip⟩
    · rw [hrec, List.length_take]
      exact le_trans (min_le_left _ _) (by norm_num)
    · intro e he
      rw [hrec] at he
      exact fallback_deterministic current routine [] [] e (List.mem_of_mem_take he)
  · obtain ⟨-, hrec, hnr, hpr, htip⟩ :=
      summary_fields_normal current routine historical seed llm h2
    rw [generateAIRecommendations_failing current routine _ _ seed llm hfail]
      at hrec hnr hpr htip
    simp only [RecResult.recommendations, RecResult.natural_remedies,
      RecResult.product_recommendations, RecResult.lifestyle_tip] at hrec hnr hpr htip
    refine ⟨fun _ => hrec, fun hc => absurd hc h2, ?_, ?_, hnr, hpr, htip⟩
    · rw [hrec]
      exact fallback_length_le current routine _ _
    · intro e he
      rw [hrec] at he
      exact fallback_deterministic current routine _ _ e he

/-- Witness for C2 on a 2-sample history and an always-raising
collaborator. -/
theorem generative_failure_total_replacement_witness :
    (generateSmartSummary ⟨[("brightness", 50)], 0, 0⟩ ⟨some 8, some 8⟩ twoFlat 0
        constFailLLM).natural_remedies = [] ∧
    (generateSmartSummary ⟨[("brightness", 50)], 0, 0⟩ ⟨some 8, some 8⟩ twoFlat 0
        constFailLLM).lifestyle_tip = Option.none := by
  have h := generative_failure_total_replacement ⟨[("brightness", 50)], 0, 0⟩
    ⟨some 8, some 8⟩ twoFlat 0 constFailLLM rfl
  exact ⟨h.2.2.2.2.1, h.2.2.2.2.2.2⟩

/-- C5: on every path the summary has at most 6 key insights, at most 8
recommendations (at most 5 when the generative call succeeds), at most 2
natural remedies, at most 2 product recommendations, and at most one
lifestyle tip. -/
theorem output_caps (current : Analysis) (routine : Routine)
    (historical : List Analysis) (seed : Fin 4) (llm : Prompt → LLMOutcome) :
    (generateSmartSummary current routine historical seed llm).key_insights.length ≤ 6 ∧
    (generateSmartSummary current routine historical seed llm).recommendations.length ≤ 8 ∧
    (generateSmartSummary current routine historical seed llm).natural_remedies.length ≤ 2 ∧
    (generateSmartSummary current routine historical seed
      llm).product_recommendations.length ≤ 2 ∧
    (generateSmartSummary current routine historical seed
      llm).lifestyle_tip.toList.length ≤ 1 ∧
    ((llm (buildPrompt current seed)).failing = false →
      (generateSmartSummary current routine historical seed
        llm).recommendations.length ≤ 5) := by
  have htip : ∀ o : Option LifestyleTip, o.toList.length ≤ 1 := by
    intro o
    cases o <;> simp
  by_cases h2 : historical.length < 2
  · obtain ⟨hki, hrec, hnr, hpr, hlt, -, -, -⟩ :=
      summary_fields_low current routine historical seed llm h2
    obtain ⟨hb1, hb2, hb3⟩ :=
      generateAIRecommendations_bounds current routine [] [] seed llm
    refine ⟨?_, ?_, ?_, ?_, htip _, ?_⟩
    · rw [hki, List.length_take]
      exact le_trans (min_le_left _ _) (by norm_num)
    · rw [hrec, List.length_take]
      exact le_trans (min_le_left _ _) (by norm_num)
    · rw [hnr]; exact hb2
    · rw [hpr]; exact hb3
    · intro hok
      rw [hrec, List.length_take]
      exact le_trans (min_le_right _ _)
        (generateAIRecommendations_success_len current routine [] [] seed llm hok)
  · obtain ⟨hki, hrec, hnr, hpr, hlt⟩ :=
      summary_fields_normal current routine historical seed llm h2
    obtain ⟨hb1, hb2, hb3⟩ := generateAIRecommendations_bounds current routine
      (analyzeFeatureTrends current.features historical)
      (detectStagnation historical current.features) seed llm
    refine ⟨?_, ?_, ?_, ?_, htip _, ?_⟩
    · rw [hki]
      exact generateKeyInsights_length_le _ _ _
    · rw [hrec]; exact hb1
    · rw [hnr]; exact hb2
    · rw [hpr]; exact hb3
    · intro hok
      rw [hrec]
      exact generateAIRecommendations_success_len current routine _ _ seed llm hok

/-- Witness for C5 with a succeeding collaborator returning five items. -/
theorem output_caps_witness :
    (generateSmartSummary exCurrent ⟨some 8, some 8⟩ [] 0
        constSuccessLLM).recommendations.length ≤ 5 :=
  (output_caps exCurrent ⟨some 8, some 8⟩ [] 0 constSuccessLLM).2.2.2.2.2 rfl

/-- C7: with fewer than two historical samples the summary takes the
baseline branch: insights are built from the two lowest-scoring current
features in ascending order (for features brightness 80, texture 20,
dark circles 55 they reference texture then dark circles), the
recommendation orchestrator is still invoked with empty trend context, the
trend buckets are empty except for stable = all current keys, and the
result carries the baseline daily-summary variant. -/
theorem low_data_baseline (current : Analysis) (routine : Routine)
    (historical : List Analysis) (seed : Fin 4) (llm : Prompt → LLMOutcome)
    (hlow : historical.length < 2) :
    (generateSmartSummary current routine historical seed llm).key_insights =
      (((sortByValue current.features).take 2).map
        (fun p => Insight.baselineLow p.1 p.2)).take 5 ∧
    (generateSmartSummary current routine historical seed llm).recommendations =
      (generateAIRecommendations current routine [] [] seed llm).recommendations.take 6 ∧
    (generateSmartSummary current routine historical seed llm).natural_remedies =
      (generateAIRecommendations current routine [] [] seed llm).natural_remedies ∧
    (generateSmartSummary current routine historical seed llm).product_recommendations =
      (generateAIRecommendations current routine [] [] seed llm).product_recommendations ∧
    (generateSmartSummary current routine historical seed llm).lifestyle_tip =
      (generateAIRecommendations current routine [] [] seed llm).lifestyle_tip ∧
    (generateSmartSummary current routine historical seed llm).daily_summary =
      DailySummary.welcomeBaseline current.sleep_score current.skin_health_score ∧
    (generateSmartSummary current routine historical seed llm).model =
      ModelTag.hybridTestingMode ∧
    (generateSmartSummary current routine historical seed llm).trend_analysis =
      ⟨[], [], [], current.features.map Prod.fst⟩ ∧
    (generateSmartSummary exCurrent routine historical seed llm).key_insights.map
      Insight.refFeature = ["texture", "dark_circles"] := by
  obtain ⟨hki, hrec, hnr, hpr, hlt, hds, hm, hta⟩ :=
    summary_fields_low current routine historical seed llm hlow
  refine ⟨hki, hrec, hnr, hpr, hlt, hds, hm, hta, ?_⟩
  have hki2 := (summary_fields_low exCurrent routine historical seed llm hlow).1
  rw [hki2]
  norm_num [sortByValue, insertAsc, exCurrent, Insight.refFeature]

/-- Witness for C7 at the spec's baseline scenario. -/
theorem low_data_baseline_witness :
    (generateSmartSummary exCurrent ⟨some 8, some 8⟩ [] 0 constFailLLM).key_insights.map
      Insight.refFeature = ["texture", "dark_circles"] :=
  (low_data_baseline exCurrent ⟨some 8, some 8⟩ [] 0 constFailLLM
    (by decide)).2.2.2.2.2.2.2.2

/-- C9: the randomized prompt-variation seed influences neither the trend
buckets nor the insights nor the daily summary: two runs on identical
inputs with different seeds agree on all trend-derived output. -/
theorem trend_computation_seed_invariant (current : Analysis) (routine : Routine)
    (historical : List Analysis) (seed1 seed2 : Fin 4) (llm : Prompt → LLMOutcome) :
    (generateSmartSummary current routine historical seed1 llm).trend_analysis =
      (generateSmartSummary current routine historical seed2 llm).trend_analysis ∧
    (generateSmartSummary current routine historical seed1 llm).key_insights =
      (generateSmartSummary current routine historical seed2 llm).key_insights ∧
    (generateSmartSummary current routine historical seed1 llm).daily_summary =
      (generateSmartSummary current routine historical seed2 llm).daily_summary := by
  by_cases h : historical.length < 2
  · unfold generateSmartSummary
    simp only [if_pos h]
    exact ⟨trivial, trivial, trivial⟩
  · unfold generateSmartSummary
    simp only [if_neg h]
    exact ⟨trivial, trivial, trivial⟩

/-- C10: in the normal branch a feature whose trend classification is
stagnant but which the stagnation detector does not flag appears in none of
the four trend-analysis buckets. -/
theorem stagnant_gap_in_buckets (current : Analysis) (routine : Routine)
    (historical : List Analysis) (seed : Fin 4) (llm : Prompt → LLMOutcome)
    (h2 : 2 ≤ historical.length) (f : String)
    (hstag : ∀ t ∈ analyzeFeatureTrends current.features historical,
      t.feature_name = f → t.trend = Trend.stagnant)
    (hnot : f ∉ detectStagnation historical current.features) :
    f ∉ (generateSmartSummary current routine historical seed
      llm).trend_analysis.improving_features ∧
    f ∉ (generateSmartSummary current routine historical seed
      llm).trend_analysis.declining_features ∧
    f ∉ (generateSmartSummary current routine historical seed
      llm).trend_analysis.stable_features ∧
    f ∉ (generateSmartSummary current routine historical seed
      llm).trend_analysis.stagnant_features := by
  have hb : (generateSmartSummary current routine historical seed llm).trend_analysis =
      ⟨((analyzeFeatureTrends current.features historical).filter
          (fun t => decide (t.trend = Trend.improving))).map FeatureTrend.feature_name,
        ((analyzeFeatureTrends current.features historical).filter
          (fun t => decide (t.trend = Trend.declining))).map FeatureTrend.feature_name,
        detectStagnation historical current.features,
        ((analyzeFeatureTrends current.features historical).filter
          (fun t => decide (t.trend = Trend.stable))).map FeatureTrend.feature_name⟩ := by
    unfold generateSmartSummary
    rw [if_neg (by omega)]
  rw [hb]
  refine ⟨?_, ?_, ?_, hnot⟩ <;>
  · intro hmem
    simp only [List.mem_map, List.mem_filter, decide_eq_true_eq] at hmem
    obtain ⟨t, ⟨hin, htr⟩, hname⟩ := hmem
    rw [hstag t hin hname] at htr
    cases htr

/-- Witness for C10: two flat samples classify brightness as stagnant, the
detector (under 14 samples) flags nothing, and brightness lands in no
bucket. -/
theorem stagnant_gap_in_buckets_witness :
    "brightness" ∉ (generateSmartSummary ⟨[("brightness", 50)], 0, 0⟩ ⟨some 8, some 8⟩
      twoFlat 0 constFailLLM).trend_analysis.improving_features ∧
    "brightness" ∉ (generateSmartSummary ⟨[("brightness", 50)], 0, 0⟩ ⟨some 8, some 8⟩
      twoFlat 0 constFailLLM).trend_analysis.declining_features ∧
    "brightness" ∉ (generateSmartSummary ⟨[("brightness", 50)], 0, 0⟩ ⟨some 8, some 8⟩
      twoFlat 0 constFailLLM).trend_analysis.stable_features ∧
    "brightness" ∉ (generateSmartSummary ⟨[("brightness", 50)], 0, 0⟩ ⟨some 8, some 8⟩
      twoFlat 0 constFailLLM).trend_analysis.stagnant_features := by
  apply stagnant_gap_in_buckets ⟨[("brightness", 50)], 0, 0⟩ ⟨some 8, some 8⟩ twoFlat 0
    constFailLLM (by decide) "brightness"
  · norm_num [analyzeFeatureTrends, twoFlat, brightnessSample, recentPeriod,
      comparisonPeriod, getFeature, mean, classifyChange, IMPROVEMENT_THRESHOLD,
      DECLINE_THRESHOLD, STAGNATION_THRESHOLD, abs_of_nonneg]
  · decide

end SmartSummary
